import Mathlib

/-!
Verification of the GOMX-3 beacon parser (`src/beacon.py`, class `Beacon0`).

The decoder is embedded shallowly:

* a byte is `Fin 256`, a frame is a `List` of bytes;
* `struct.unpack("<I", ...)` on the 4-byte header is `unpackLE32`, which is
  `none` exactly when the buffer is not 4 bytes long (Python raises
  `struct.error` there, modelled by the `StructError` outcome);
* the big-endian readers `be16`, `be32`, `sbe16` mirror the `>I`, `>H`, `>h`
  format codes of the payload unpacks;
* the Python result `self.beacon`, a dict of five dicts, is a
  `List (String × List (String × Value))` in insertion order, keys written
  exactly as in the source (including the keys that end in a space);
* Python `/ 10.0` on the temperature fields is modelled as exact division in
  `Rat`; both the code and the properties below apply the same division, so
  floating-point rounding plays no role in any statement;
* the two `>f` (IEEE-754 single) fields of the ADS-B block are kept as their
  raw 32-bit big-endian bit patterns under the `Value.float` constructor; no
  property here depends on their numeric interpretation;
* the three `TypeError`s raised by the source carry distinct messages and are
  modelled by the three named constructors of `BeaconError`.
-/

namespace Gomx3

abbrev Byte := Fin 256

abbrev Bytes := List Byte

/-- Class constant `BEACON0_LENGTH` of `Beacon0`. -/
def BEACON0_LENGTH : Nat := 136

/-- Class constant `BEACON0_SOURCE` of `Beacon0`. -/
def BEACON0_SOURCE : Nat := 1

/-- Class constant `BEACON0_DEST` of `Beacon0`. -/
def BEACON0_DEST : Nat := 10

/-- Class constant `BEACON0_DPORT` of `Beacon0`. -/
def BEACON0_DPORT : Nat := 30

/-- `struct.unpack("<I", b)[0]`: a little-endian unsigned 32-bit word read
from exactly 4 bytes; any other buffer size raises `struct.error`, modelled
as `none`. -/
def unpackLE32 : Bytes → Option Nat
  | [a, b, c, d] => some (a.val + 256 * b.val + 65536 * c.val + 16777216 * d.val)
  | _ => none

/-- Big-endian unsigned 16-bit read at offset `i` (format code `>H`). -/
def be16 (l : Bytes) (i : Nat) : Nat :=
  256 * (l.getD i 0).val + (l.getD (i + 1) 0).val

/-- Big-endian unsigned 32-bit read at offset `i` (format code `>I`). -/
def be32 (l : Bytes) (i : Nat) : Nat :=
  16777216 * (l.getD i 0).val + 65536 * (l.getD (i + 1) 0).val +
    256 * (l.getD (i + 2) 0).val + (l.getD (i + 3) 0).val

/-- Two's-complement reinterpretation of a 16-bit unsigned value. -/
def toInt16 (n : Nat) : Int :=
  if n < 32768 then (n : Int) else (n : Int) - 65536

/-- Big-endian signed 16-bit read at offset `i` (format code `>h`). -/
def sbe16 (l : Bytes) (i : Nat) : Int := toInt16 (be16 l i)

/-- Source field of the CSP header: `(header >> 25) & 0x1f`. -/
def srcOf (header : Nat) : Nat := (header >>> 25) &&& 0x1f

/-- Destination field of the CSP header: `(header >> 20) & 0x1f`. -/
def dstOf (header : Nat) : Nat := (header >>> 20) &&& 0x1f

/-- Destination-port field of the CSP header: `(header >> 14) & 0x3f`. -/
def dportOf (header : Nat) : Nat := (header >>> 14) &&& 0x3f

/-- A value stored in the beacon dictionary.  Python tuples in the source
hold either all-unsigned or all-signed entries, giving the two tuple
constructors; `rat` holds the result of a `/ 10.0` scaling; `float` holds the
raw 32-bit pattern of a `>f` field. -/
inductive Value where
  | nat (n : Nat)
  | int (i : Int)
  | rat (q : Rat)
  | float (bits : Nat)
  | natTup (ns : List Nat)
  | intTup (is : List Int)
deriving DecidableEq, Repr

abbrev FieldGroup := List (String × Value)

abbrev BeaconDict := List (String × FieldGroup)

/-- The decoder outcomes.  The source raises `TypeError` with three distinct
messages ("Beacon destination does not match", "Length does not match beacon
0", "Unknown beacon type"), here the three named constructors; `StructError`
is the raw `struct.error` escaping from `struct.unpack("<I", data[:4])` when
fewer than 4 bytes are available. -/
inductive BeaconError where
  | RoutingMismatch
  | LengthMismatch
  | UnsupportedType
  | StructError
deriving DecidableEq, Repr

/-- The `self.beacon['eps']` dictionary: `struct.unpack('>I16H6hB', eps)`
distributed over the keyed fields, in source order. -/
def epsGroup (eps : Bytes) : FieldGroup :=
  [("timestamp", .nat (be32 eps 0)),
   ("vboost", .natTup [be16 eps 4, be16 eps 6, be16 eps 8]),
   ("vbatt", .nat (be16 eps 10)),
   ("curout", .natTup [be16 eps 12, be16 eps 14, be16 eps 16, be16 eps 18,
      be16 eps 20, be16 eps 22, be16 eps 24]),
   ("curin", .natTup [be16 eps 26, be16 eps 28, be16 eps 30]),
   ("cursun", .nat (be16 eps 32)),
   ("cursys", .nat (be16 eps 34)),
   ("temp", .intTup [sbe16 eps 36, sbe16 eps 38, sbe16 eps 40, sbe16 eps 42,
      sbe16 eps 44, sbe16 eps 46]),
   ("battmode", .nat (eps.getD 48 0).val)]

/-- The `self.beacon['com']` dictionary: `struct.unpack('>I5h', com)`. -/
def comGroup (com : Bytes) : FieldGroup :=
  [("timestamp", .nat (be32 com 0)),
   ("temp_brd", .rat ((sbe16 com 4 : Rat) / 10)),
   ("temp_pa", .rat ((sbe16 com 6 : Rat) / 10)),
   ("last_rssi", .int (sbe16 com 8)),
   ("last_rferr", .int (sbe16 com 10)),
   ("bgnd_rssi", .int (sbe16 com 12))]

/-- The `self.beacon['obc']` dictionary: `struct.unpack('>I3H2h', obc)`.
The last key is written `"temp_b "` with a trailing space, exactly as in the
source. -/
def obcGroup (obc : Bytes) : FieldGroup :=
  [("timestamp", .nat (be32 obc 0)),
   ("cur_gssb1", .nat (be16 obc 4)),
   ("cur_gssb2", .nat (be16 obc 6)),
   ("cur_flash", .nat (be16 obc 8)),
   ("temp_a", .rat ((sbe16 obc 10 : Rat) / 10)),
   ("temp_b ", .rat ((sbe16 obc 12 : Rat) / 10))]

/-- The `self.beacon['adcs']` dictionary: `struct.unpack('>I6H2h', adcs)`.
The last key is written `"temp_b "` with a trailing space, as in the source. -/
def adcsGroup (adcs : Bytes) : FieldGroup :=
  [("timestamp", .nat (be32 adcs 0)),
   ("cur_gssb1", .nat (be16 adcs 4)),
   ("cur_gssb2", .nat (be16 adcs 6)),
   ("cur_flash", .nat (be16 adcs 8)),
   ("cur_pwm", .nat (be16 adcs 10)),
   ("cur_gps", .nat (be16 adcs 12)),
   ("cur_wde", .nat (be16 adcs 14)),
   ("temp_a", .rat ((sbe16 adcs 16 : Rat) / 10)),
   ("temp_b ", .rat ((sbe16 adcs 18 : Rat) / 10))]

/-- The `self.beacon['adsb']` dictionary: `struct.unpack('>I7HI2f2I', adsb)`.
The last key is written `"last_time "` with a trailing space, as in the
source; `last_lat` and `last_lon` keep their raw 32-bit patterns. -/
def adsbGroup (adsb : Bytes) : FieldGroup :=
  [("timestamp", .nat (be32 adsb 0)),
   ("cur5v0brd", .nat (be16 adsb 4)),
   ("cur3v3brd", .nat (be16 adsb 6)),
   ("cur3v3sd", .nat (be16 adsb 8)),
   ("cur1v2", .nat (be16 adsb 10)),
   ("cur2v5", .nat (be16 adsb 12)),
   ("cur3v3fpga", .nat (be16 adsb 14)),
   ("cur3v3adc", .nat (be16 adsb 16)),
   ("last_icao", .nat (be32 adsb 18)),
   ("last_lat", .float (be32 adsb 22)),
   ("last_lon", .float (be32 adsb 26)),
   ("last_alt", .nat (be32 adsb 30)),
   ("last_time ", .nat (be32 adsb 34))]

/-- The `49s` slice of `struct.unpack('<B49s14s14s20s38s', bdata)`. -/
def epsSlice (bdata : Bytes) : Bytes := (bdata.drop 1).take 49

/-- The first `14s` slice, payload offset 50. -/
def comSlice (bdata : Bytes) : Bytes := (bdata.drop 50).take 14

/-- The second `14s` slice, payload offset 64. -/
def obcSlice (bdata : Bytes) : Bytes := (bdata.drop 64).take 14

/-- The `20s` slice, payload offset 78. -/
def adcsSlice (bdata : Bytes) : Bytes := (bdata.drop 78).take 20

/-- The `38s` slice, payload offset 98. -/
def adsbSlice (bdata : Bytes) : Bytes := (bdata.drop 98).take 38

/-- Construction of `self.beacon` from the validated 136-byte payload. -/
def payloadGroups (bdata : Bytes) : BeaconDict :=
  [("eps", epsGroup (epsSlice bdata)),
   ("com", comGroup (comSlice bdata)),
   ("obc", obcGroup (obcSlice bdata)),
   ("adcs", adcsGroup (adcsSlice bdata)),
   ("adsb", adsbGroup (adsbSlice bdata))]

/-- The `if csp:` block of `Beacon0.__init__`: split off `data[:4]`, unpack
it little-endian, verify the routing fields, and return `data[4:]`. -/
def stripHeader (data : Bytes) (csp : Bool) : Except BeaconError Bytes :=
  if csp then
    match unpackLE32 (data.take 4) with
    | none => .error .StructError
    | some header =>
      if srcOf header ≠ BEACON0_SOURCE ∨ dstOf header ≠ BEACON0_DEST ∨
          dportOf header ≠ BEACON0_DPORT then
        .error .RoutingMismatch
      else
        .ok (data.drop 4)
  else
    .ok data

/-- The `if crc: bdata = bdata[:-4]` step.  Python's `[:-4]` keeps the first
`length - 4` elements (all of them truncated at zero), which is exactly
`List.take` with truncated subtraction. -/
def stripTrailer (bdata : Bytes) (crc : Bool) : Bytes :=
  if crc then bdata.take (bdata.length - 4) else bdata

/-- Length check, type-tag check, and field splitting on the stripped
payload. -/
def decodeCore (bdata : Bytes) : Except BeaconError BeaconDict :=
  if bdata.length ≠ BEACON0_LENGTH then
    .error .LengthMismatch
  else if (bdata.getD 0 0).val ≠ 0 then
    .error .UnsupportedType
  else
    .ok (payloadGroups bdata)

/-- `Beacon0.__init__(data, csp, crc)` as a function from the raw frame to
either a typed failure or the beacon dictionary. -/
def decode (data : Bytes) (csp crc : Bool) : Except BeaconError BeaconDict :=
  match stripHeader data csp with
  | .error e => .error e
  | .ok bdata => decodeCore (stripTrailer bdata crc)

/-- The byte sequence remaining after stripping the configured header and
trailer, independent of whether the routing check passes. -/
def strippedPayload (data : Bytes) (csp crc : Bool) : Bytes :=
  stripTrailer (if csp then data.drop 4 else data) crc

/-- Decidable form of "the 4-byte header is present and its routing fields
match `(BEACON0_SOURCE, BEACON0_DEST, BEACON0_DPORT)`". -/
def routingOk (data : Bytes) : Bool :=
  match unpackLE32 (data.take 4) with
  | none => false
  | some header =>
    decide (srcOf header = BEACON0_SOURCE) && decide (dstOf header = BEACON0_DEST) &&
      decide (dportOf header = BEACON0_DPORT)

/-- Nested dictionary access `self.beacon[g][k]`. -/
def lookupField (r : BeaconDict) (g k : String) : Option Value :=
  match r.lookup g with
  | some fields => fields.lookup k
  | none => none

/-- Observable shape of a stored value: which constructor it uses and, for a
tuple, its arity. -/
inductive Shape where
  | nat
  | int
  | rat
  | float
  | natTup (n : Nat)
  | intTup (n : Nat)
deriving DecidableEq, Repr

/-- The shape of a `Value`. -/
def Value.shape : Value → Shape
  | .nat _ => .nat
  | .int _ => .int
  | .rat _ => .rat
  | .float _ => .float
  | .natTup l => .natTup l.length
  | .intTup l => .intTup l.length

/-- Field names of a group paired with the shapes of their values. -/
def fieldShapes (g : FieldGroup) : List (String × Shape) :=
  g.map (fun f => (f.1, f.2.shape))

/-- Whether the last character of a string is whitespace. -/
def endsInWhitespaceChar (s : String) : Bool :=
  (s.data.getLastD 'x').isWhitespace

/-- All `(group, key)` pairs of a beacon dictionary whose key ends in a
whitespace character. -/
def whitespaceKeys (r : BeaconDict) : List (String × String) :=
  (r.map (fun g =>
    (g.2.filter (fun f => endsInWhitespaceChar f.1)).map
      (fun f => (g.1, f.1)))).flatten

/-- An all-zero well-formed 136-byte frame body, used as a concrete input. -/
def zeroFrame : Bytes := List.replicate 136 0

deriving instance DecidableEq for Except

/-! ## Helper lemmas about the decoding pipeline -/

theorem unpackLE32_eq_none {l : Bytes} (h : l.length ≠ 4) : unpackLE32 l = none :=
  match l, h with
  | [], _ => rfl
  | [_], _ => rfl
  | [_, _], _ => rfl
  | [_, _, _], _ => rfl
  | [_, _, _, _], h => absurd rfl h
  | _ :: _ :: _ :: _ :: _ :: _, _ => rfl

theorem stripHeader_none {d : Bytes} (hup : unpackLE32 (d.take 4) = none) :
    stripHeader d true = .error .StructError := by
  unfold stripHeader
  rw [if_pos rfl, hup]

theorem stripHeader_routing_err {d : Bytes} {h : Nat}
    (hup : unpackLE32 (d.take 4) = some h)
    (hbad : ¬(srcOf h = BEACON0_SOURCE ∧ dstOf h = BEACON0_DEST ∧
      dportOf h = BEACON0_DPORT)) :
    stripHeader d true = .error .RoutingMismatch := by
  unfold stripHeader
  rw [if_pos rfl]
  split
  · rename_i heq
    rw [hup] at heq
    cases heq
  · rename_i header heq
    rw [hup] at heq
    injection heq with heq
    subst heq
    rw [if_pos (by tauto)]

theorem routingOk_of_fields {d : Bytes} {h : Nat}
    (hup : unpackLE32 (d.take 4) = some h)
    (hgood : srcOf h = BEACON0_SOURCE ∧ dstOf h = BEACON0_DEST ∧
      dportOf h = BEACON0_DPORT) :
    routingOk d = true := by
  unfold routingOk
  split
  · rename_i heq
    rw [hup] at heq
    cases heq
  · rename_i header heq
    rw [hup] at heq
    injection heq with heq
    subst heq
    simp [hgood.1, hgood.2.1, hgood.2.2]

theorem fields_of_routingOk {d : Bytes} {h : Nat}
    (hup : unpackLE32 (d.take 4) = some h) (hok : routingOk d = true) :
    srcOf h = BEACON0_SOURCE ∧ dstOf h = BEACON0_DEST ∧
      dportOf h = BEACON0_DPORT := by
  unfold routingOk at hok
  split at hok
  · exact absurd hok (by simp)
  · rename_i header heq
    rw [hup] at heq
    injection heq with heq
    subst heq
    simp only [Bool.and_eq_true, decide_eq_true_eq] at hok
    exact ⟨hok.1.1, hok.1.2, hok.2⟩

theorem stripHeader_of_routingOk {d : Bytes} (hok : routingOk d = true) :
    stripHeader d true = .ok (d.drop 4) := by
  unfold routingOk at hok
  unfold stripHeader
  rw [if_pos rfl]
  split
  · rename_i heq
    rw [heq] at hok
    exact absurd hok (by simp)
  · rename_i header heq
    rw [heq] at hok
    simp only [Bool.and_eq_true, decide_eq_true_eq] at hok
    rw [if_neg]
    push_neg
    exact ⟨hok.1.1, hok.1.2, hok.2⟩

theorem stripHeader_ok_val {d b : Bytes} {csp : Bool}
    (h : stripHeader d csp = .ok b) : b = if csp then d.drop 4 else d := by
  cases csp with
  | false => simpa [stripHeader] using h.symm
  | true =>
    unfold stripHeader at h
    rw [if_pos rfl] at h
    split at h
    · exact absurd h (by simp)
    · split at h
      · exact absurd h (by simp)
      · simpa using h.symm

theorem decode_eq_core {d : Bytes} {csp crc : Bool}
    (h : csp = true → routingOk d = true) :
    decode d csp crc = decodeCore (strippedPayload d csp crc) := by
  cases csp with
  | false => rfl
  | true =>
    unfold decode
    rw [stripHeader_of_routingOk (h rfl)]
    rfl

theorem decodeCore_ok {b : Bytes} (hlen : b.length = BEACON0_LENGTH)
    (hty : (b.getD 0 0).val = 0) :
    decodeCore b = .ok (payloadGroups b) := by
  unfold decodeCore
  rw [if_neg (by omega), if_neg (by omega)]

theorem decodeCore_len {b : Bytes} (hlen : b.length ≠ BEACON0_LENGTH) :
    decodeCore b = .error .LengthMismatch := by
  unfold decodeCore
  rw [if_pos hlen]

theorem decodeCore_type {b : Bytes} (hlen : b.length = BEACON0_LENGTH)
    (hty : (b.getD 0 0).val ≠ 0) :
    decodeCore b = .error .UnsupportedType := by
  unfold decodeCore
  rw [if_neg (by omega), if_pos hty]

theorem decodeCore_ne_routing (b : Bytes) :
    decodeCore b ≠ .error .RoutingMismatch := by
  unfold decodeCore
  by_cases hlen : b.length ≠ BEACON0_LENGTH
  · rw [if_pos hlen]; simp
  · rw [if_neg hlen]
    by_cases hty : (b.getD 0 0).val ≠ 0
    · rw [if_pos hty]; simp
    · rw [if_neg hty]; simp

theorem decode_ok_inv {d : Bytes} {csp crc : Bool} {r : BeaconDict}
    (h : decode d csp crc = .ok r) :
    r = payloadGroups (strippedPayload d csp crc) ∧
      (strippedPayload d csp crc).length = BEACON0_LENGTH ∧
      ((strippedPayload d csp crc).getD 0 0).val = 0 := by
  unfold decode at h
  cases hsh : stripHeader d csp with
  | error e => rw [hsh] at h; exact absurd h (by simp)
  | ok b =>
    rw [hsh] at h
    rw [stripHeader_ok_val hsh] at h
    have h : decodeCore (strippedPayload d csp crc) = .ok r := h
    by_cases hlen : (strippedPayload d csp crc).length = BEACON0_LENGTH
    · by_cases hty : ((strippedPayload d csp crc).getD 0 0).val = 0
      · rw [decodeCore_ok hlen hty] at h
        exact ⟨by simpa using h.symm, hlen, hty⟩
      · rw [decodeCore_type hlen hty] at h; exact absurd h (by simp)
    · rw [decodeCore_len hlen] at h; exact absurd h (by simp)

theorem routingOk_congr {d1 d2 : Bytes} (h : d1.take 4 = d2.take 4) :
    routingOk d1 = routingOk d2 := by
  unfold routingOk
  rw [h]

theorem unpackLE32_take4_some {d : Bytes} (h4 : 4 ≤ d.length) :
    ∃ h, unpackLE32 (d.take 4) = some h := by
  match d with
  | [] => simp at h4
  | [_] => simp at h4
  | [_, _] => simp at h4
  | [_, _, _] => simp at h4
  | _ :: _ :: _ :: _ :: _ => exact ⟨_, rfl⟩

set_option maxRecDepth 100000

/-! ## The claims -/

/-- C2: for every input whose configured header, if present, passes the
routing check, if the byte sequence remaining after stripping the configured
header and trailer does not have length exactly 136, decoding fails with the
`LengthMismatch` error. -/
theorem decode_length_mismatch (data : Bytes) (csp crc : Bool)
    (hroute : csp = true → routingOk data = true)
    (hlen : (strippedPayload data csp crc).length ≠ 136) :
    decode data csp crc = .error .LengthMismatch := by
  rw [decode_eq_core hroute]
  exact decodeCore_len hlen

theorem decode_length_mismatch_witness :
    (strippedPayload ([1, 2, 3] : Bytes) false false).length ≠ 136 ∧
      decode ([1, 2, 3] : Bytes) false false = .error .LengthMismatch :=
  ⟨by decide,
   decode_length_mismatch [1, 2, 3] false false (fun h => by cases h) (by decide)⟩

/-- C3: a Payload — per §3 of the specification, the 136-byte body remaining
after stripping the configured header and trailer — whose first byte is not 0
makes decoding fail with the `UnsupportedType` error (for stripped sequences
of any other length the length check fires first, see
`decode_check_order`). -/
theorem decode_unsupported_type (data : Bytes) (csp crc : Bool)
    (hroute : csp = true → routingOk data = true)
    (hlen : (strippedPayload data csp crc).length = 136)
    (htype : ((strippedPayload data csp crc).getD 0 0).val ≠ 0) :
    decode data csp crc = .error .UnsupportedType := by
  rw [decode_eq_core hroute]
  exact decodeCore_type hlen htype

theorem decode_unsupported_type_witness :
    (strippedPayload ((1 : Byte) :: List.replicate 135 0) false false).length = 136 ∧
      ((strippedPayload ((1 : Byte) :: List.replicate 135 0) false false).getD 0 0).val ≠ 0 ∧
      decode ((1 : Byte) :: List.replicate 135 0) false false = .error .UnsupportedType :=
  ⟨by decide, by decide,
   decode_unsupported_type ((1 : Byte) :: List.replicate 135 0) false false
     (fun h => by cases h) (by decide) (by decide)⟩

/-- C4: with the header flag set and the first 4 input bytes read as the
little-endian unsigned 32-bit word `h`, decoding fails with `RoutingMismatch`
if and only if the extracted source (bits 25–29), destination (bits 20–24)
and destination port (bits 14–19) are not `(1, 10, 30)`. -/
theorem decode_routing_iff (data : Bytes) (crc : Bool) (h : Nat)
    (hup : unpackLE32 (data.take 4) = some h) :
    decode data true crc = .error .RoutingMismatch ↔
      ¬(srcOf h = 1 ∧ dstOf h = 10 ∧ dportOf h = 30) := by
  constructor
  · intro hdec
    by_contra hgood
    have hok := routingOk_of_fields hup hgood
    rw [decode_eq_core (fun _ => hok)] at hdec
    exact decodeCore_ne_routing _ hdec
  · intro hbad
    unfold decode
    rw [stripHeader_routing_err hup hbad]

theorem decode_routing_iff_witness :
    unpackLE32 (([0, 0, 0, 0] : Bytes).take 4) = some 0 ∧
      decode ([0, 0, 0, 0] : Bytes) true false = .error .RoutingMismatch :=
  ⟨by decide,
   (decode_routing_iff [0, 0, 0, 0] false 0 (by decide)).mpr (by decide)⟩

/-- C8: the validation checks run in a fixed order.  First conjunct: with the
header flag set, a routing mismatch is reported regardless of the rest of the
input (no hypothesis on length or type tag).  Second conjunct: once the
header passes, a wrong stripped length is reported as `LengthMismatch` with
no hypothesis on the type tag. -/
theorem decode_check_order :
    (∀ (data : Bytes) (crc : Bool) (h : Nat),
        unpackLE32 (data.take 4) = some h →
        ¬(srcOf h = 1 ∧ dstOf h = 10 ∧ dportOf h = 30) →
        decode data true crc = .error .RoutingMismatch) ∧
    (∀ (data : Bytes) (csp crc : Bool),
        (csp = true → routingOk data = true) →
        (strippedPayload data csp crc).length ≠ 136 →
        decode data csp crc = .error .LengthMismatch) := by
  constructor
  · intro data crc h hup hbad
    unfold decode
    rw [stripHeader_routing_err hup hbad]
  · intro data csp crc hroute hlen
    rw [decode_eq_core hroute]
    exact decodeCore_len hlen

theorem decode_check_order_witness :
    decode ([0, 0, 0, 0, 1] : Bytes) true false = .error .RoutingMismatch ∧
      decode ([1, 2, 3] : Bytes) false true = .error .LengthMismatch :=
  ⟨decode_check_order.1 [0, 0, 0, 0, 1] false 0 (by decide) (by decide),
   decode_check_order.2 [1, 2, 3] false true (fun h => by cases h) (by decide)⟩

/-- C9: with the header flag set and fewer than 4 input bytes,
`struct.unpack("<I", data[:4])` raises a raw `struct.error`
(`StructError` here), which is none of the three documented typed
failures. -/
theorem decode_short_header_raw_error (data : Bytes) (crc : Bool)
    (hshort : data.length < 4) :
    decode data true crc = .error .StructError ∧
      BeaconError.StructError ≠ BeaconError.RoutingMismatch ∧
      BeaconError.StructError ≠ BeaconError.LengthMismatch ∧
      BeaconError.StructError ≠ BeaconError.UnsupportedType := by
  refine ⟨?_, by decide, by decide, by decide⟩
  unfold decode
  rw [stripHeader_none (unpackLE32_eq_none (by rw [List.length_take]; omega))]

theorem decode_short_header_raw_error_witness :
    ([1, 2] : Bytes).length < 4 ∧
      decode ([1, 2] : Bytes) true true = .error .StructError :=
  ⟨by decide, (decode_short_header_raw_error [1, 2] true (by decide)).1⟩

/-- C1: every input whose stripped payload is exactly 136 bytes with type
tag 0 (the header, if configured, passing the `(1, 10, 30)` routing check)
decodes successfully to a record with exactly the five field groups, built
from the fixed sub-slices of lengths 49, 14, 14, 20 and 38 following the
type byte, with the documented field names and shapes. -/
theorem decode_wellformed_ok (data : Bytes) (csp crc : Bool)
    (hroute : csp = true → routingOk data = true)
    (hlen : (strippedPayload data csp crc).length = 136)
    (htype : ((strippedPayload data csp crc).getD 0 0).val = 0) :
    decode data csp crc =
      .ok (payloadGroups (strippedPayload data csp crc)) ∧
    (payloadGroups (strippedPayload data csp crc)).map Prod.fst =
      ["eps", "com", "obc", "adcs", "adsb"] ∧
    (epsSlice (strippedPayload data csp crc)).length = 49 ∧
    (comSlice (strippedPayload data csp crc)).length = 14 ∧
    (obcSlice (strippedPayload data csp crc)).length = 14 ∧
    (adcsSlice (strippedPayload data csp crc)).length = 20 ∧
    (adsbSlice (strippedPayload data csp crc)).length = 38 ∧
    fieldShapes (epsGroup (epsSlice (strippedPayload data csp crc))) =
      [("timestamp", .nat), ("vboost", .natTup 3), ("vbatt", .nat),
       ("curout", .natTup 7), ("curin", .natTup 3), ("cursun", .nat),
       ("cursys", .nat), ("temp", .intTup 6), ("battmode", .nat)] ∧
    fieldShapes (comGroup (comSlice (strippedPayload data csp crc))) =
      [("timestamp", .nat), ("temp_brd", .rat), ("temp_pa", .rat),
       ("last_rssi", .int), ("last_rferr", .int), ("bgnd_rssi", .int)] ∧
    fieldShapes (obcGroup (obcSlice (strippedPayload data csp crc))) =
      [("timestamp", .nat), ("cur_gssb1", .nat), ("cur_gssb2", .nat),
       ("cur_flash", .nat), ("temp_a", .rat), ("temp_b ", .rat)] ∧
    fieldShapes (adcsGroup (adcsSlice (strippedPayload data csp crc))) =
      [("timestamp", .nat), ("cur_gssb1", .nat), ("cur_gssb2", .nat),
       ("cur_flash", .nat), ("cur_pwm", .nat), ("cur_gps", .nat),
       ("cur_wde", .nat), ("temp_a", .rat), ("temp_b ", .rat)] ∧
    fieldShapes (adsbGroup (adsbSlice (strippedPayload data csp crc))) =
      [("timestamp", .nat), ("cur5v0brd", .nat), ("cur3v3brd", .nat),
       ("cur3v3sd", .nat), ("cur1v2", .nat), ("cur2v5", .nat),
       ("cur3v3fpga", .nat), ("cur3v3adc", .nat), ("last_icao", .nat),
       ("last_lat", .float), ("last_lon", .float), ("last_alt", .nat),
       ("last_time ", .nat)] := by
  refine ⟨?_, rfl, ?_, ?_, ?_, ?_, ?_, rfl, rfl, rfl, rfl, rfl⟩
  · rw [decode_eq_core hroute]
    exact decodeCore_ok hlen htype
  · simp [epsSlice, hlen]
  · simp [comSlice, hlen]
  · simp [obcSlice, hlen]
  · simp [adcsSlice, hlen]
  · simp [adsbSlice, hlen]

theorem decode_wellformed_ok_witness :
    (strippedPayload zeroFrame false false).length = 136 ∧
      ((strippedPayload zeroFrame false false).getD 0 0).val = 0 ∧
      decode zeroFrame false false =
        .ok (payloadGroups (strippedPayload zeroFrame false false)) :=
  ⟨by decide, by decide,
   (decode_wellformed_ok zeroFrame false false
      (fun h => by cases h) (by decide) (by decide)).1⟩

/-- C5: in every successfully decoded record the temperature fields of the
comms, onboard-computer and attitude-control groups equal the big-endian
signed 16-bit wire value at the documented offset of the corresponding
sub-slice, divided by 10. -/
theorem decode_temp_scaling (data : Bytes) (csp crc : Bool) (r : BeaconDict)
    (hdec : decode data csp crc = .ok r) :
    lookupField r "com" "temp_brd" =
      some (.rat ((sbe16 (comSlice (strippedPayload data csp crc)) 4 : Rat) / 10)) ∧
    lookupField r "com" "temp_pa" =
      some (.rat ((sbe16 (comSlice (strippedPayload data csp crc)) 6 : Rat) / 10)) ∧
    lookupField r "obc" "temp_a" =
      some (.rat ((sbe16 (obcSlice (strippedPayload data csp crc)) 10 : Rat) / 10)) ∧
    lookupField r "obc" "temp_b " =
      some (.rat ((sbe16 (obcSlice (strippedPayload data csp crc)) 12 : Rat) / 10)) ∧
    lookupField r "adcs" "temp_a" =
      some (.rat ((sbe16 (adcsSlice (strippedPayload data csp crc)) 16 : Rat) / 10)) ∧
    lookupField r "adcs" "temp_b " =
      some (.rat ((sbe16 (adcsSlice (strippedPayload data csp crc)) 18 : Rat) / 10)) := by
  obtain ⟨hr, -, -⟩ := decode_ok_inv hdec
  subst hr
  exact ⟨rfl, rfl, rfl, rfl, rfl, rfl⟩

theorem decode_temp_scaling_witness :
    decode zeroFrame false false =
      .ok (payloadGroups (strippedPayload zeroFrame false false)) ∧
    lookupField (payloadGroups (strippedPayload zeroFrame false false))
        "com" "temp_brd" =
      some (.rat ((sbe16 (comSlice (strippedPayload zeroFrame false false)) 4 : Rat) / 10)) := by
  have hdec : decode zeroFrame false false =
      .ok (payloadGroups (strippedPayload zeroFrame false false)) := by
    rw [decode_eq_core (fun h => by cases h)]
    exact decodeCore_ok (by decide) (by decide)
  exact ⟨hdec, (decode_temp_scaling zeroFrame false false _ hdec).1⟩

/-- C6: in every successfully decoded record the power group is read from
its 49-byte slice entirely big-endian: a 32-bit timestamp at offset 0;
sixteen unsigned 16-bit words at offsets 4–34 grouped as 3 boost voltages,
battery voltage, 7 output currents, 3 input currents, sun current and system
current; six signed 16-bit temperatures at offsets 36–46 kept as raw
integers; and the unsigned battery-mode byte at offset 48. -/
theorem decode_eps_layout (data : Bytes) (csp crc : Bool) (r : BeaconDict)
    (hdec : decode data csp crc = .ok r) :
    r.lookup "eps" =
      some [("timestamp", .nat (be32 (epsSlice (strippedPayload data csp crc)) 0)),
            ("vboost", .natTup [be16 (epsSlice (strippedPayload data csp crc)) 4,
              be16 (epsSlice (strippedPayload data csp crc)) 6,
              be16 (epsSlice (strippedPayload data csp crc)) 8]),
            ("vbatt", .nat (be16 (epsSlice (strippedPayload data csp crc)) 10)),
            ("curout", .natTup [be16 (epsSlice (strippedPayload data csp crc)) 12,
              be16 (epsSlice (strippedPayload data csp crc)) 14,
              be16 (epsSlice (strippedPayload data csp crc)) 16,
              be16 (epsSlice (strippedPayload data csp crc)) 18,
              be16 (epsSlice (strippedPayload data csp crc)) 20,
              be16 (epsSlice (strippedPayload data csp crc)) 22,
              be16 (epsSlice (strippedPayload data csp crc)) 24]),
            ("curin", .natTup [be16 (epsSlice (strippedPayload data csp crc)) 26,
              be16 (epsSlice (strippedPayload data csp crc)) 28,
              be16 (epsSlice (strippedPayload data csp crc)) 30]),
            ("cursun", .nat (be16 (epsSlice (strippedPayload data csp crc)) 32)),
            ("cursys", .nat (be16 (epsSlice (strippedPayload data csp crc)) 34)),
            ("temp", .intTup [sbe16 (epsSlice (strippedPayload data csp crc)) 36,
              sbe16 (epsSlice (strippedPayload data csp crc)) 38,
              sbe16 (epsSlice (strippedPayload data csp crc)) 40,
              sbe16 (epsSlice (strippedPayload data csp crc)) 42,
              sbe16 (epsSlice (strippedPayload data csp crc)) 44,
              sbe16 (epsSlice (strippedPayload data csp crc)) 46]),
            ("battmode",
              .nat ((epsSlice (strippedPayload data csp crc)).getD 48 0).val)] := by
  obtain ⟨hr, -, -⟩ := decode_ok_inv hdec
  subst hr
  rfl

theorem decode_eps_layout_witness :
    decode zeroFrame false false =
      .ok (payloadGroups (strippedPayload zeroFrame false false)) ∧
    (payloadGroups (strippedPayload zeroFrame false false)).lookup "eps" =
      some [("timestamp", .nat (be32 (epsSlice (strippedPayload zeroFrame false false)) 0)),
            ("vboost", .natTup [be16 (epsSlice (strippedPayload zeroFrame false false)) 4,
              be16 (epsSlice (strippedPayload zeroFrame false false)) 6,
              be16 (epsSlice (strippedPayload zeroFrame false false)) 8]),
            ("vbatt", .nat (be16 (epsSlice (strippedPayload zeroFrame false false)) 10)),
            ("curout", .natTup [be16 (epsSlice (strippedPayload zeroFrame false false)) 12,
              be16 (epsSlice (strippedPayload zeroFrame false false)) 14,
              be16 (epsSlice (strippedPayload zeroFrame false false)) 16,
              be16 (epsSlice (strippedPayload zeroFrame false false)) 18,
              be16 (epsSlice (strippedPayload zeroFrame false false)) 20,
              be16 (epsSlice (strippedPayload zeroFrame false false)) 22,
              be16 (epsSlice (strippedPayload zeroFrame false false)) 24]),
            ("curin", .natTup [be16 (epsSlice (strippedPayload zeroFrame false false)) 26,
              be16 (epsSlice (strippedPayload zeroFrame false false)) 28,
              be16 (epsSlice (strippedPayload zeroFrame false false)) 30]),
            ("cursun", .nat (be16 (epsSlice (strippedPayload zeroFrame false false)) 32)),
            ("cursys", .nat (be16 (epsSlice (strippedPayload zeroFrame false false)) 34)),
            ("temp", .intTup [sbe16 (epsSlice (strippedPayload zeroFrame false false)) 36,
              sbe16 (epsSlice (strippedPayload zeroFrame false false)) 38,
              sbe16 (epsSlice (strippedPayload zeroFrame false false)) 40,
              sbe16 (epsSlice (strippedPayload zeroFrame false false)) 42,
              sbe16 (epsSlice (strippedPayload zeroFrame false false)) 44,
              sbe16 (epsSlice (strippedPayload zeroFrame false false)) 46]),
            ("battmode",
              .nat ((epsSlice (strippedPayload zeroFrame false false)).getD 48 0).val)] := by
  have hdec : decode zeroFrame false false =
      .ok (payloadGroups (strippedPayload zeroFrame false false)) := by
    rw [decode_eq_core (fun h => by cases h)]
    exact decodeCore_ok (by decide) (by decide)
  exact ⟨hdec, decode_eps_layout zeroFrame false false _ hdec⟩

/-- C10: in every successfully decoded record the keys ending in whitespace
are exactly `"temp_b "` in the onboard-computer group, `"temp_b "` in the
attitude-control group, and `"last_time "` in the auxiliary-sensor group, and
those keys hold the second temperature of their group and the last-detection
timestamp respectively. -/
theorem decode_trailing_space_keys (data : Bytes) (csp crc : Bool)
    (r : BeaconDict) (hdec : decode data csp crc = .ok r) :
    whitespaceKeys r =
      [("obc", "temp_b "), ("adcs", "temp_b "), ("adsb", "last_time ")] ∧
    lookupField r "obc" "temp_b " =
      some (.rat ((sbe16 (obcSlice (strippedPayload data csp crc)) 12 : Rat) / 10)) ∧
    lookupField r "adcs" "temp_b " =
      some (.rat ((sbe16 (adcsSlice (strippedPayload data csp crc)) 18 : Rat) / 10)) ∧
    lookupField r "adsb" "last_time " =
      some (.nat (be32 (adsbSlice (strippedPayload data csp crc)) 34)) := by
  obtain ⟨hr, -, -⟩ := decode_ok_inv hdec
  subst hr
  exact ⟨rfl, rfl, rfl, rfl⟩

theorem decode_trailing_space_keys_witness :
    decode zeroFrame false false =
      .ok (payloadGroups (strippedPayload zeroFrame false false)) ∧
    whitespaceKeys (payloadGroups (strippedPayload zeroFrame false false)) =
      [("obc", "temp_b "), ("adcs", "temp_b "), ("adsb", "last_time ")] := by
  have hdec : decode zeroFrame false false =
      .ok (payloadGroups (strippedPayload zeroFrame false false)) := by
    rw [decode_eq_core (fun h => by cases h)]
    exact decodeCore_ok (by decide) (by decide)
  exact ⟨hdec, (decode_trailing_space_keys zeroFrame false false _ hdec).1⟩

/-- C7 fails as stated: with the header flag set and a 7-byte input, the
final 4 bytes overlap the 4-byte routing header, so two inputs of the same
length agreeing outside their final 4 bytes can decode to different
errors. -/
theorem decode_trailer_counterexample :
    ([0, 0x80, 0xA7, 0x02, 0, 0, 0] : Bytes).length =
      ([0, 0x80, 0xA7, 0x00, 0, 0, 0] : Bytes).length ∧
    ([0, 0x80, 0xA7, 0x02, 0, 0, 0] : Bytes).take
        (([0, 0x80, 0xA7, 0x02, 0, 0, 0] : Bytes).length - 4) =
      ([0, 0x80, 0xA7, 0x00, 0, 0, 0] : Bytes).take
        (([0, 0x80, 0xA7, 0x00, 0, 0, 0] : Bytes).length - 4) ∧
    decode ([0, 0x80, 0xA7, 0x02, 0, 0, 0] : Bytes) true true =
      .error .LengthMismatch ∧
    decode ([0, 0x80, 0xA7, 0x00, 0, 0, 0] : Bytes) true true =
      .error .RoutingMismatch ∧
    decode ([0, 0x80, 0xA7, 0x02, 0, 0, 0] : Bytes) true true ≠
      decode ([0, 0x80, 0xA7, 0x00, 0, 0, 0] : Bytes) true true :=
  ⟨by decide, by decide, by decide, by decide, by decide⟩

/-- C7 (amended): with the trailer flag set, decoding removes the last 4
bytes without inspecting them — two inputs of the same length that agree
outside their final 4 bytes decode identically — provided the final 4 bytes
cannot overlap a configured routing header: the header flag is clear, or the
input has at least 8 bytes, or fewer than 4. -/
theorem decode_trailer_not_inspected (d1 d2 : Bytes) (csp : Bool)
    (hlen : d1.length = d2.length)
    (hpre : d1.take (d1.length - 4) = d2.take (d2.length - 4))
    (hside : csp = false ∨ 8 ≤ d1.length ∨ d1.length < 4) :
    decode d1 csp true = decode d2 csp true := by
  cases csp with
  | false =>
    calc decode d1 false true = decodeCore (d1.take (d1.length - 4)) := rfl
      _ = decodeCore (d2.take (d2.length - 4)) := by rw [hpre]
      _ = decode d2 false true := rfl
  | true =>
    rcases hside with hcsp | h8 | hlt
    · cases hcsp
    · have htk4 : d1.take 4 = d2.take 4 := by
        have h := congrArg (List.take 4) hpre
        rw [List.take_take, List.take_take] at h
        rwa [Nat.min_eq_left (by omega), Nat.min_eq_left (by omega)] at h
      have hdrop : (d1.drop 4).take (d1.length - 8) =
          (d2.drop 4).take (d2.length - 8) := by
        have h := congrArg (List.drop 4) hpre
        rw [List.drop_take, List.drop_take] at h
        have e1 : d1.length - 4 - 4 = d1.length - 8 := by omega
        have e2 : d2.length - 4 - 4 = d2.length - 8 := by omega
        rwa [e1, e2] at h
      by_cases hro : routingOk d1 = true
      · have hro2 : routingOk d2 = true := routingOk_congr htk4 ▸ hro
        rw [decode_eq_core (fun _ => hro), decode_eq_core (fun _ => hro2)]
        have hsp : strippedPayload d1 true true = strippedPayload d2 true true := by
          show (d1.drop 4).take ((d1.drop 4).length - 4) =
            (d2.drop 4).take ((d2.drop 4).length - 4)
          rw [List.length_drop, List.length_drop]
          have e1 : d1.length - 4 - 4 = d1.length - 8 := by omega
          have e2 : d2.length - 4 - 4 = d2.length - 8 := by omega
          rw [e1, e2]
          exact hdrop
        rw [hsp]
      · obtain ⟨hw, hup1⟩ := unpackLE32_take4_some (d := d1) (by omega)
        have hup2 : unpackLE32 (d2.take 4) = some hw := htk4 ▸ hup1
        have hbad : ¬(srcOf hw = BEACON0_SOURCE ∧ dstOf hw = BEACON0_DEST ∧
            dportOf hw = BEACON0_DPORT) :=
          fun hgood => hro (routingOk_of_fields hup1 hgood)
        unfold decode
        rw [stripHeader_routing_err hup1 hbad, stripHeader_routing_err hup2 hbad]
    · have e1 : unpackLE32 (d1.take 4) = none :=
        unpackLE32_eq_none (by rw [List.length_take]; omega)
      have e2 : unpackLE32 (d2.take 4) = none :=
        unpackLE32_eq_none (by rw [List.length_take]; omega)
      unfold decode
      rw [stripHeader_none e1, stripHeader_none e2]

theorem decode_trailer_not_inspected_witness :
    (zeroFrame ++ [1, 2, 3, 4]).length = (zeroFrame ++ [9, 9, 9, 9]).length ∧
    (zeroFrame ++ [1, 2, 3, 4]).take ((zeroFrame ++ [1, 2, 3, 4]).length - 4) =
      (zeroFrame ++ [9, 9, 9, 9]).take ((zeroFrame ++ [9, 9, 9, 9]).length - 4) ∧
    decode (zeroFrame ++ [1, 2, 3, 4]) false true =
      decode (zeroFrame ++ [9, 9, 9, 9]) false true :=
  ⟨by decide, by decide,
   decode_trailer_not_inspected _ _ false (by decide) (by decide) (Or.inl rfl)⟩

end Gomx3
